import Mathlib

/-
  Verification of the crackbank backend (src/backend/main.py), a small
  FastAPI service with two endpoints: a breach lookup over an in-memory
  dataset, and an AI-summary endpoint that forwards breach records to an
  external generative-AI API.

  The embedding is shallow: Python dictionaries with possibly-missing keys
  become structures of Option fields, the dataset dict becomes an
  association list in iteration order, and raised HTTPExceptions become
  the error side of an Except value.  The outbound HTTP call of the
  summary endpoint is modelled by an oracle parameter (UpstreamOutcome)
  describing what the call did: raised a RequestException, or returned a
  parsed JSON body.
-/

namespace CrackBank

/-- A dataset entry, as stored under one source name in breaches.json.
    Every field is optional because the code reads each key with dict.get,
    tolerating its absence: date, risk_level and description default to
    None, and leaked_details defaults to the empty list. -/
structure BreachInfo where
  date : Option String
  risk_level : Option String
  description : Option String
  leaked_details : Option (List String)
deriving Repr, DecidableEq

/-- The breach dataset: the JSON object of breaches.json as an association
    list from source name to entry, in dict iteration order. -/
abbrev BreachDataset := List (String × BreachInfo)

/-- One record of the breaches list returned by check_breach: the source
    name plus the entry fields, which are null (none) when the entry
    lacked them. -/
structure BreachRecord where
  source : String
  date : Option String
  risk_level : Option String
  description : Option String
deriving Repr, DecidableEq

/-- Request body of POST check-breach (pydantic model BreachCheckRequest):
    a required detail string and an optional email. -/
structure BreachCheckRequest where
  detail : String
  email : Option String
deriving Repr, DecidableEq

/-- A FastAPI HTTPException as observed by the client: status code and
    detail message. -/
structure HTTPError where
  status_code : Nat
  detail : String
deriving Repr, DecidableEq

/-- Response body of check_breach.  breaches = none models the field
    being omitted from the returned JSON object. -/
structure CheckResponse where
  breached : Bool
  breaches : Option (List BreachRecord)
deriving Repr, DecidableEq

/-- The arguments of one call to send_breach_notification: the email and
    the full list of matched breach records. -/
structure BreachAlert where
  email : String
  breaches : List BreachRecord
deriving Repr, DecidableEq

/-- load_breach_data from main.py: opening breaches.json either succeeds
    and json.load yields the dataset, or raises FileNotFoundError and the
    handler returns the empty dict.  The Option argument stands for the
    presence of the file. -/
def load_breach_data (file : Option BreachDataset) : BreachDataset :=
  match file with
  | some db => db
  | none => []

/-- Python truthiness of an Optional string field: None and the empty
    string are falsy, every other string is truthy. -/
def pyTruthy (s : Option String) : Bool :=
  match s with
  | some e => e != ""
  | none => false

/-- The record dict appended for a matching entry in check_breach: source
    is the dict key; the other fields are read with dict.get and are null
    when absent. -/
def recordOf (source : String) (info : BreachInfo) : BreachRecord :=
  { source := source
    date := info.date
    risk_level := info.risk_level
    description := info.description }

/-- The inner membership test of check_breach:
    any(user_detail == item for item in breach_info.get("leaked_details", [])). -/
def matchesDetail (detail : String) (info : BreachInfo) : Bool :=
  (info.leaked_details.getD []).any (fun item => detail == item)

/-- The loop of check_breach that builds found_breaches: iterate over the
    dataset in order, appending one record per entry whose leaked_details
    list holds the detail. -/
def found_breaches (db : BreachDataset) (detail : String) : List BreachRecord :=
  db.foldl
    (fun acc p => if matchesDetail detail p.2 then acc ++ [recordOf p.1 p.2] else acc)
    []

/-- check_breach from main.py.  Returns the raised HTTPException or the
    response body paired with the notification side effect: some alert
    when send_breach_notification was invoked (it is invoked at most once
    per request, guarded by a truthy email and a nonempty match list),
    none when it was not. -/
def check_breach (db : BreachDataset) (req : BreachCheckRequest) :
    Except HTTPError (CheckResponse × Option BreachAlert) :=
  if req.detail = "" ∨ req.detail.length < 8 then
    .error ⟨400, "Invalid banking detail provided."⟩
  else
    let found := found_breaches db req.detail
    if found.isEmpty then
      .ok ({ breached := false, breaches := none }, none)
    else
      let alert : Option BreachAlert :=
        if pyTruthy req.email then some ⟨req.email.getD "", found⟩ else none
      .ok ({ breached := true, breaches := some found }, alert)

/-- A part of the Gemini JSON response; text is read with get and
    defaults to the empty string. -/
structure GeminiPart where
  text : Option String
deriving Repr, DecidableEq

/-- The content object of a Gemini candidate; parts is read with get and
    defaults to a one-element list holding an empty dict. -/
structure GeminiContent where
  parts : Option (List GeminiPart)
deriving Repr, DecidableEq

/-- One candidate of the Gemini response; content defaults to an empty
    dict when absent. -/
structure GeminiCandidate where
  content : Option GeminiContent
deriving Repr, DecidableEq

/-- The parsed JSON body of a successful Gemini call; candidates is read
    with get and defaults to a one-element list holding an empty dict. -/
structure GeminiResult where
  candidates : Option (List GeminiCandidate)
deriving Repr, DecidableEq

/-- What the outbound requests.post call (followed by raise_for_status
    and response.json) did: raised a RequestException carrying a message
    (connection error or non-2xx status), or produced a parsed body. -/
inductive UpstreamOutcome where
  | failure (msg : String)
  | success (result : GeminiResult)
deriving Repr, DecidableEq

/-- The exceptions that can escape the try block of
    summarize_breach_with_ai.  httpExc is the fastapi HTTPException (a
    subclass of Exception, so it is caught by the generic handler);
    requestExc is requests.exceptions.RequestException; indexError is the
    IndexError raised by indexing an empty list with zero. -/
inductive PyExc where
  | httpExc (status_code : Nat) (detail : String)
  | requestExc (msg : String)
  | indexError
deriving Repr, DecidableEq

/-- Response body of a successful summarize_breach_with_ai call. -/
structure SummaryResponse where
  summary : String
deriving Repr, DecidableEq

/-- The extraction lines of summarize_breach_with_ai:
    candidate = result.get("candidates", [dict()])[0] and
    content = candidate.get("content", dict()).get("parts", [dict()])[0].get("text", "").
    Indexing an empty list raises IndexError. -/
def extract_content (result : GeminiResult) : Except PyExc String :=
  match result.candidates.getD [⟨none⟩] with
  | [] => .error .indexError
  | candidate :: _ =>
    match (candidate.content.getD ⟨none⟩).parts.getD [⟨none⟩] with
    | [] => .error .indexError
    | part :: _ => .ok (part.text.getD "")

/-- The try block of summarize_breach_with_ai, after validation: perform
    the call, extract the text, and raise HTTPException 500 when the
    extracted text is empty. -/
def summarize_try_body (outcome : UpstreamOutcome) : Except PyExc SummaryResponse :=
  match outcome with
  | .failure msg => .error (.requestExc msg)
  | .success result =>
    match extract_content result with
    | .error e => .error e
    | .ok content =>
      if content = "" then
        .error (.httpExc 500 "Failed to get a valid response from AI model.")
      else
        .ok ⟨content⟩

/-- summarize_breach_with_ai from main.py.  api_key is os.getenv of the
    credential (none when unset); breach_data is the request body list;
    outcome is what the outbound call did.  The except clauses run in
    source order: RequestException maps to 503 with the cause appended,
    and every other exception, including the HTTPException raised for an
    empty extracted text, is caught by the generic handler and becomes
    the catch-all 500. -/
def summarize_breach_with_ai (api_key : Option String)
    (breach_data : List BreachRecord) (outcome : UpstreamOutcome) :
    Except HTTPError SummaryResponse :=
  if pyTruthy api_key = false then
    .error ⟨500, "Google API key not configured."⟩
  else if breach_data = [] then
    .error ⟨400, "No breach data provided."⟩
  else
    match summarize_try_body outcome with
    | .ok resp => .ok resp
    | .error (.requestExc msg) =>
      .error ⟨503, "Error communicating with the AI service: " ++ msg⟩
    | .error _ =>
      .error ⟨500, "An internal error occurred while processing the AI summary."⟩

/-- The dataset entry of the worked example in the documentation. -/
def info0 : BreachInfo :=
  { date := some "2023-01-01"
    risk_level := some "high"
    description := some "x"
    leaked_details := some ["ACC123456"] }

/-- Example dataset with a single source. -/
def db0 : BreachDataset := [("LeakCo", info0)]

/-- The breach record produced for info0 under source LeakCo. -/
def rec0 : BreachRecord :=
  { source := "LeakCo"
    date := some "2023-01-01"
    risk_level := some "high"
    description := some "x" }

/-- An entry with no leaked_details key at all. -/
def info1 : BreachInfo :=
  { date := none, risk_level := none, description := none, leaked_details := none }

/-- An entry matching ACC123456 but missing date and description. -/
def info2 : BreachInfo :=
  { date := none
    risk_level := some "low"
    description := none
    leaked_details := some ["ACC123456"] }

/-- Dataset mixing an entry without leaked_details and a partial entry. -/
def db1 : BreachDataset := [("NoDetails", info1), ("PartialCo", info2)]

/-- A Gemini body whose first candidate's first part carries empty text. -/
def emptyGemini : GeminiResult :=
  ⟨some [⟨some ⟨some [⟨some ""⟩]⟩⟩]⟩

/-- A Gemini body whose first candidate's first part carries real text. -/
def okGemini : GeminiResult :=
  ⟨some [⟨some ⟨some [⟨some "Stay calm."⟩]⟩⟩]⟩

/-- The found_breaches loop is the in-order filter of the dataset by the
    membership test, mapped to records. -/
theorem found_breaches_aux (detail : String) (db : BreachDataset)
    (acc : List BreachRecord) :
    db.foldl
      (fun acc p => if matchesDetail detail p.2 then acc ++ [recordOf p.1 p.2] else acc)
      acc
      = acc ++ (db.filter fun p => matchesDetail detail p.2).map
          (fun p => recordOf p.1 p.2) := by
  induction db generalizing acc with
  | nil => simp
  | cons p t ih =>
    by_cases h : matchesDetail detail p.2 <;>
      simp [List.foldl_cons, h, ih, List.filter_cons]

/-- Closed form of found_breaches. -/
theorem found_breaches_eq (db : BreachDataset) (detail : String) :
    found_breaches db detail
      = (db.filter fun p => matchesDetail detail p.2).map
          (fun p => recordOf p.1 p.2) := by
  simpa [found_breaches] using found_breaches_aux detail db []

/-- An entry containing the detail in its leaked_details list passes the
    membership test. -/
theorem matchesDetail_of_mem {detail : String} {info : BreachInfo}
    (h : detail ∈ info.leaked_details.getD []) :
    matchesDetail detail info = true := by
  simp only [matchesDetail, List.any_eq_true]
  exact ⟨detail, h, by simp⟩

/-- A detail of length at least 8 passes the validation test. -/
theorem valid_detail_cond {d : String} (h : 8 ≤ d.length) :
    ¬ (d = "" ∨ d.length < 8) := by
  rintro (h1 | h1)
  · rw [h1] at h; simp at h
  · omega

/-- Shape of the check_breach result when validation passes and at least
    one entry matched: breached is true, breaches is the match list, and
    the notification fires exactly when the email is truthy. -/
theorem check_breach_found_form (db : BreachDataset) (req : BreachCheckRequest)
    (hne : ¬ (req.detail = "" ∨ req.detail.length < 8))
    (hnonempty : (found_breaches db req.detail).isEmpty = false) :
    check_breach db req =
      .ok ({ breached := true, breaches := some (found_breaches db req.detail) },
        if pyTruthy req.email then
          some ⟨req.email.getD "", found_breaches db req.detail⟩
        else none) := by
  unfold check_breach
  rw [if_neg hne]
  simp [hnonempty]

/-- The match list is nonempty when the detail sits in some entry's
    leaked_details. -/
theorem found_breaches_nonempty {db : BreachDataset} {detail : String}
    (hmem : ∃ p ∈ db, detail ∈ p.2.leaked_details.getD []) :
    (found_breaches db detail).isEmpty = false := by
  obtain ⟨p, hp, hdet⟩ := hmem
  have hmm : matchesDetail detail p.2 = true := matchesDetail_of_mem hdet
  have hfilter : p ∈ db.filter fun q => matchesDetail detail q.2 :=
    List.mem_filter.mpr ⟨hp, hmm⟩
  obtain ⟨a, l, hal⟩ := List.exists_cons_of_ne_nil (List.ne_nil_of_mem hfilter)
  rw [found_breaches_eq, hal]
  simp

/-- C1: for a detail of length at least 8 present in some entry's
    leaked-details set, check_breach answers breached = true with a
    breaches list holding exactly one record per matching dataset entry,
    carrying that entry's source, date, risk level and description, in
    dataset iteration order. -/
theorem check_breach_found (db : BreachDataset) (req : BreachCheckRequest)
    (hlen : 8 ≤ req.detail.length)
    (hmem : ∃ p ∈ db, req.detail ∈ p.2.leaked_details.getD []) :
    ∃ alert,
      check_breach db req =
        .ok ({ breached := true,
               breaches := some ((db.filter fun p => matchesDetail req.detail p.2).map
                 (fun p => recordOf p.1 p.2)) }, alert) := by
  refine ⟨if pyTruthy req.email then
      some ⟨req.email.getD "",
        (db.filter fun p => matchesDetail req.detail p.2).map (fun p => recordOf p.1 p.2)⟩
    else none, ?_⟩
  rw [check_breach_found_form db req (valid_detail_cond hlen) (found_breaches_nonempty hmem),
    found_breaches_eq]

/-- C2: a detail that is empty or shorter than 8 characters makes
    check_breach raise HTTPException 400 and produce no lookup result. -/
theorem check_breach_invalid (db : BreachDataset) (req : BreachCheckRequest)
    (h : req.detail = "" ∨ req.detail.length < 8) :
    check_breach db req = .error ⟨400, "Invalid banking detail provided."⟩ := by
  simp only [check_breach, if_pos h]

/-- C2 witness: a 5-character detail is rejected with status 400. -/
theorem check_breach_invalid_witness :
    check_breach db0 ⟨"ACC12", none⟩
      = .error ⟨400, "Invalid banking detail provided."⟩ :=
  check_breach_invalid db0 ⟨"ACC12", none⟩ (Or.inr (by decide))

/-- Shape of the check_breach result when validation passes and no entry
    matched: the body is exactly breached = false, the breaches field is
    omitted, and no notification fires. -/
theorem check_breach_empty_form (db : BreachDataset) (req : BreachCheckRequest)
    (hne : ¬ (req.detail = "" ∨ req.detail.length < 8))
    (hempty : (found_breaches db req.detail).isEmpty = true) :
    check_breach db req = .ok ({ breached := false, breaches := none }, none) := by
  unfold check_breach
  rw [if_neg hne]
  simp [hempty]

/-- The match list is empty when the detail sits in no entry's
    leaked_details. -/
theorem found_breaches_empty {db : BreachDataset} {detail : String}
    (habs : ∀ p ∈ db, detail ∉ p.2.leaked_details.getD []) :
    (found_breaches db detail).isEmpty = true := by
  have hfilter : (db.filter fun q => matchesDetail detail q.2) = [] := by
    rw [List.filter_eq_nil_iff]
    intro p hp hm
    simp only [matchesDetail, List.any_eq_true] at hm
    obtain ⟨x, hx, hbeq⟩ := hm
    have hx2 : detail = x := by simpa using hbeq
    exact habs p hp (hx2 ▸ hx)
  rw [found_breaches_eq, hfilter]
  simp

/-- C5: a valid detail absent from every entry's leaked-details set
    yields exactly breached = false with the breaches field omitted (and
    no notification). -/
theorem check_breach_not_found (db : BreachDataset) (req : BreachCheckRequest)
    (hlen : 8 ≤ req.detail.length)
    (habs : ∀ p ∈ db, req.detail ∉ p.2.leaked_details.getD []) :
    check_breach db req = .ok ({ breached := false, breaches := none }, none) :=
  check_breach_empty_form db req (valid_detail_cond hlen) (found_breaches_empty habs)

/-- C1 witness: the spec's worked example, detail ACC123456 against
    dataset db0, is breached with the single LeakCo record. -/
theorem check_breach_found_witness :
    ∃ alert, check_breach db0 ⟨"ACC123456", none⟩
      = .ok ({ breached := true,
               breaches := some ((db0.filter fun p => matchesDetail "ACC123456" p.2).map
                 (fun p => recordOf p.1 p.2)) }, alert) :=
  check_breach_found db0 ⟨"ACC123456", none⟩ (by decide) (by decide)

/-- C5 witness: the spec's second worked example, detail NOTFOUND1
    against db0, answers exactly breached = false. -/
theorem check_breach_not_found_witness :
    check_breach db0 ⟨"NOTFOUND1", none⟩
      = .ok ({ breached := false, breaches := none }, none) :=
  check_breach_not_found db0 ⟨"NOTFOUND1", none⟩ (by decide) (by decide)

/-- C6 counterexample: with the example dataset, a matching detail and
    the email field provided as the empty string, the claim requires a
    notification (an email was provided and a breach matched), but the
    code sends none, because the truthiness test on request.email treats
    the empty string like an absent field. -/
theorem check_breach_empty_email_counterexample :
    check_breach db0 ⟨"ACC123456", some ""⟩
      = .ok ({ breached := true, breaches := some [rec0] }, none) ∧
    (some "" : Option String) ≠ none ∧
    found_breaches db0 "ACC123456" ≠ [] := by
  refine ⟨rfl, by simp, by decide⟩

/-- C6 amended: for a valid detail, the notification fires exactly once,
    with the supplied email and the full match list, precisely when the
    email field holds a nonempty string and at least one breach matched;
    a falsy email (absent or empty string) or an empty match list fires
    none. -/
theorem check_breach_alert_iff (db : BreachDataset) (req : BreachCheckRequest)
    (hlen : 8 ≤ req.detail.length) :
    ∃ resp, check_breach db req = .ok (resp,
      if pyTruthy req.email && !(found_breaches db req.detail).isEmpty then
        some ⟨req.email.getD "", found_breaches db req.detail⟩
      else none) := by
  by_cases h : (found_breaches db req.detail).isEmpty
  · refine ⟨{ breached := false, breaches := none }, ?_⟩
    rw [check_breach_empty_form db req (valid_detail_cond hlen) h]
    simp [h]
  · refine ⟨{ breached := true, breaches := some (found_breaches db req.detail) }, ?_⟩
    rw [check_breach_found_form db req (valid_detail_cond hlen) (by simpa using h)]
    simp [eq_false_of_ne_true h]

/-- C6 amended witness: a nonempty email with a match fires the
    notification carrying that email and the full match list. -/
theorem check_breach_alert_iff_witness :
    ∃ resp, check_breach db0 ⟨"ACC123456", some "user@example.com"⟩ = .ok (resp,
      if pyTruthy (some "user@example.com") && !(found_breaches db0 "ACC123456").isEmpty then
        some ⟨(some "user@example.com").getD "", found_breaches db0 "ACC123456"⟩
      else none) :=
  check_breach_alert_iff db0 ⟨"ACC123456", some "user@example.com"⟩ (by decide)

/-- C8: with the backing file absent, load_breach_data yields the empty
    mapping rather than an error, and every valid lookup against the
    loaded dataset answers breached = false. -/
theorem load_missing_file_empty (req : BreachCheckRequest)
    (hlen : 8 ≤ req.detail.length) :
    load_breach_data none = [] ∧
    check_breach (load_breach_data none) req
      = .ok ({ breached := false, breaches := none }, none) := by
  refine ⟨rfl, ?_⟩
  exact check_breach_empty_form _ req (valid_detail_cond hlen) rfl

/-- C8 witness: with no file, looking up ACC123456 answers breached =
    false. -/
theorem load_missing_file_empty_witness :
    load_breach_data none = [] ∧
    check_breach (load_breach_data none) ⟨"ACC123456", none⟩
      = .ok ({ breached := false, breaches := none }, none) :=
  load_missing_file_empty ⟨"ACC123456", none⟩ (by decide)

/-- C9: two check_breach requests with the same detail against the same
    dataset produce identical response bodies whatever their email
    fields; the email only steers the notification side effect. -/
theorem check_breach_email_noninterference (db : BreachDataset) (d : String)
    (e1 e2 : Option String) :
    Except.map Prod.fst (check_breach db ⟨d, e1⟩)
      = Except.map Prod.fst (check_breach db ⟨d, e2⟩) := by
  by_cases h : d = "" ∨ d.length < 8
  · simp [check_breach, h]
  · by_cases h2 : (found_breaches db d).isEmpty
    · simp [check_breach, h, h2]
    · simp [check_breach, h, h2, Except.map]

/-- C10: for a valid detail the lookup is total over partial entries: it
    returns a response (never raises), an entry without a leaked_details
    key never matches, and every returned record copies the entry's
    optional date, risk_level and description verbatim, so a missing
    field surfaces as null. -/
theorem check_breach_partial_entries (db : BreachDataset) (req : BreachCheckRequest)
    (hlen : 8 ≤ req.detail.length) :
    ∃ resp alert, check_breach db req = .ok (resp, alert) ∧
      (∀ p ∈ db, p.2.leaked_details = none → matchesDetail req.detail p.2 = false) ∧
      (∀ l, resp.breaches = some l →
        l = (db.filter fun p => matchesDetail req.detail p.2).map
          (fun p => { source := p.1, date := p.2.date, risk_level := p.2.risk_level,
                      description := p.2.description })) := by
  have hnomatch : ∀ p ∈ db, p.2.leaked_details = none →
      matchesDetail req.detail p.2 = false := by
    intro p _ hnone
    simp [matchesDetail, hnone]
  by_cases h : (found_breaches db req.detail).isEmpty
  · refine ⟨_, _, check_breach_empty_form db req (valid_detail_cond hlen) h,
      hnomatch, ?_⟩
    intro l hl
    simp at hl
  · refine ⟨_, _, check_breach_found_form db req (valid_detail_cond hlen)
      (by simpa using h), hnomatch, ?_⟩
    intro l hl
    have hl2 : l = found_breaches db req.detail := by
      simpa using hl.symm
    rw [hl2, found_breaches_eq]
    rfl

/-- C10 witness: against db1, whose first entry lacks leaked_details and
    whose matching entry lacks date and description, the lookup succeeds
    with the stated shape. -/
theorem check_breach_partial_entries_witness :
    ∃ resp alert, check_breach db1 ⟨"ACC123456", none⟩ = .ok (resp, alert) ∧
      (∀ p ∈ db1, p.2.leaked_details = none →
        matchesDetail "ACC123456" p.2 = false) ∧
      (∀ l, resp.breaches = some l →
        l = (db1.filter fun p => matchesDetail "ACC123456" p.2).map
          (fun p => { source := p.1, date := p.2.date, risk_level := p.2.risk_level,
                      description := p.2.description })) :=
  check_breach_partial_entries db1 ⟨"ACC123456", none⟩ (by decide)

/-- C3 counterexample: with the credential absent and breach_data empty,
    the endpoint raises the ConfigurationError with status 500, not the
    InvalidInput 400 the claim requires for every empty breach_data
    request, because the credential check runs first. -/
theorem summarize_empty_data_counterexample :
    summarize_breach_with_ai none [] (.success okGemini)
      = .error ⟨500, "Google API key not configured."⟩ ∧ (500 : Nat) ≠ 400 :=
  ⟨rfl, by decide⟩

/-- C3 amended: with a truthy credential, an empty breach_data list is
    rejected with InvalidInput 400; and whenever the credential is absent
    from the environment the endpoint fails with the ConfigurationError
    500, whatever the body. -/
theorem summarize_validation (api_key : Option String)
    (breach_data : List BreachRecord) (outcome : UpstreamOutcome) :
    (pyTruthy api_key = true → breach_data = [] →
      summarize_breach_with_ai api_key breach_data outcome
        = .error ⟨400, "No breach data provided."⟩) ∧
    (api_key = none →
      summarize_breach_with_ai api_key breach_data outcome
        = .error ⟨500, "Google API key not configured."⟩) := by
  constructor
  · intro hk hd
    simp [summarize_breach_with_ai, hk, hd]
  · intro hk
    subst hk
    simp [summarize_breach_with_ai, pyTruthy]

/-- C3 amended witness: both branches at concrete inputs. -/
theorem summarize_validation_witness :
    summarize_breach_with_ai (some "k") [] (.success okGemini)
      = .error ⟨400, "No breach data provided."⟩ ∧
    summarize_breach_with_ai none [rec0] (.success okGemini)
      = .error ⟨500, "Google API key not configured."⟩ :=
  ⟨(summarize_validation (some "k") [] (.success okGemini)).1 (by decide) rfl,
   (summarize_validation none [rec0] (.success okGemini)).2 rfl⟩

/-- C4: the try block does raise the distinct empty-response
    HTTPException when the extracted text is empty, but because
    HTTPException is an Exception, the generic handler catches it and
    the endpoint surfaces the catch-all InternalError message instead of
    the distinct one the claim (and the code's own message at the raise
    site) intends. -/
theorem summarize_empty_text_swallowed :
    summarize_breach_with_ai (some "key") [rec0] (.success emptyGemini)
      = .error ⟨500, "An internal error occurred while processing the AI summary."⟩ ∧
    summarize_try_body (.success emptyGemini)
      = .error (.httpExc 500 "Failed to get a valid response from AI model.") ∧
    "An internal error occurred while processing the AI summary."
      ≠ "Failed to get a valid response from AI model." :=
  ⟨rfl, rfl, by decide⟩

/-- C7: with a truthy credential and nonempty breach_data, a failing
    outbound call (connection error or non-2xx status raised by
    raise_for_status) is surfaced as 503 with the cause description
    appended to the message. -/
theorem summarize_upstream_failure (api_key : Option String)
    (breach_data : List BreachRecord) (msg : String)
    (hkey : pyTruthy api_key = true) (hdata : breach_data ≠ []) :
    summarize_breach_with_ai api_key breach_data (.failure msg)
      = .error ⟨503, "Error communicating with the AI service: " ++ msg⟩ := by
  simp [summarize_breach_with_ai, hkey, hdata, summarize_try_body]

/-- C7 witness: a concrete failing call is surfaced as 503 carrying the
    cause. -/
theorem summarize_upstream_failure_witness :
    summarize_breach_with_ai (some "k") [rec0] (.failure "boom")
      = .error ⟨503, "Error communicating with the AI service: " ++ "boom"⟩ :=
  summarize_upstream_failure (some "k") [rec0] "boom" (by decide) (by decide)

end CrackBank
